import Mathlib

/- Shallow embedding of the `ez-rust-discovery` crate (`src/lib.rs`): a small
wrapper that registers and deregisters a service instance with a Nacos-style
naming service.  External effects (process environment variables, local-IP
detection, and the naming-service client) are modelled as explicit
parameters.  Rust's `std::net::SocketAddr` string parser and `i32::from_str`
are embedded faithfully since the constructor's behaviour hinges on them. -/

set_option autoImplicit false

/-- Environment of the process: a partial map from variable name to value.
`std::env::var` returning `Err(VarError::NotPresent)` is modelled as `none`. -/
abbrev EnvMap := String → Option String

/-- The `EzError` enum from `src/lib.rs` lines 16-23.  Payloads of wrapped
foreign error types are modelled as message strings; the `IO` variant is
spelled `ioErr`; `Env` carries the variable name (its `VarError` payload is
determined by the `EnvMap` model and elided); `Parse` carries no payload
since Rust's `AddrParseError` is a constant-kind error. -/
inductive EzError where
  | ioErr (msg : String)
  | Env (name : String)
  | Parse
  | LocalIP (msg : String)
  | Other (msg : String)
  deriving DecidableEq, Repr

/-- Rust `char::to_digit(radix)`. -/
def toDigit (radix : Nat) (c : Char) : Option Nat :=
  let v : Option Nat :=
    if '0' ≤ c ∧ c ≤ '9' then some (c.toNat - '0'.toNat)
    else if 'a' ≤ c ∧ c ≤ 'z' then some (c.toNat - 'a'.toNat + 10)
    else if 'A' ≤ c ∧ c ≤ 'Z' then some (c.toNat - 'A'.toNat + 10)
    else none
  match v with
  | some d => if d < radix then some d else none
  | none => none

/-- Rust `Parser::read_given_char`: consume exactly the character `t`. -/
def readGivenChar (t : Char) : List Char → Option (List Char)
  | c :: rest => if c = t then some rest else none
  | [] => none

/-- Digit-accumulation loop of Rust `Parser::read_number`; `bound` is the
maximum value of the target integer type (`checked_mul`/`checked_add`
failure is modelled as exceeding `bound`).  Returns the accumulated value,
the number of digits consumed, and the rest of the input; `none` models an
abort of the whole `read_number` (overflow, or more than `maxDigits`
digits). -/
def readNumberLoop (radix bound : Nat) (maxDigits : Option Nat) :
    List Char → Nat → Nat → Option (Nat × Nat × List Char)
  | [], result, count => some (result, count, [])
  | c :: rest, result, count =>
    match toDigit radix c with
    | none => some (result, count, c :: rest)
    | some d =>
      let r := result * radix + d
      if bound < r then none
      else
        match maxDigits with
        | some m =>
          if m < count + 1 then none
          else readNumberLoop radix bound maxDigits rest r (count + 1)
        | none => readNumberLoop radix bound maxDigits rest r (count + 1)

/-- Rust `Parser::read_number`: reads a number in the given radix with the
given digit limit and zero-prefix policy; fails on zero digits, on a
disallowed leading zero, and on overflow past `bound`. -/
def readNumber (radix bound : Nat) (maxDigits : Option Nat)
    (allowZeroPrefix : Bool) (s : List Char) : Option (Nat × List Char) :=
  let hasLeadingZero := s.head? = some '0'
  match readNumberLoop radix bound maxDigits s 0 0 with
  | none => none
  | some (result, count, rest) =>
    if count = 0 then none
    else if ¬allowZeroPrefix ∧ hasLeadingZero ∧ 1 < count then none
    else some (result, rest)

/-- Rust `Parser::read_ipv4_addr`: four decimal octets of one to three
digits (no leading zeros, each at most 255) separated by dots. -/
def readIpv4Addr (s : List Char) : Option ((Nat × Nat × Nat × Nat) × List Char) := do
  let (a, s) ← readNumber 10 255 (some 3) false s
  let s ← readGivenChar '.' s
  let (b, s) ← readNumber 10 255 (some 3) false s
  let s ← readGivenChar '.' s
  let (c, s) ← readNumber 10 255 (some 3) false s
  let s ← readGivenChar '.' s
  let (d, s) ← readNumber 10 255 (some 3) false s
  return ((a, b, c, d), s)

/-- Rust `read_groups` from the IPv6 parser: reads up to `rem` 16-bit hex
groups starting at group index `i`, optionally ending in an embedded IPv4
address (allowed only when at least two slots remain).  Returns the groups
read, whether an embedded IPv4 address was read, and the rest of the
input. -/
def readGroupsAux : Nat → Nat → List Char → List Nat × Bool × List Char
  | 0, _, s => ([], false, s)
  | rem + 1, i, s =>
    let sep : List Char → Option (List Char) :=
      fun t => if 0 < i then readGivenChar ':' t else some t
    let ipv4Try : Option (List Nat × List Char) :=
      if 1 ≤ rem then
        match sep s with
        | none => none
        | some s1 =>
          match readIpv4Addr s1 with
          | none => none
          | some ((a, b, c, d), s2) => some ([a * 256 + b, c * 256 + d], s2)
      else none
    match ipv4Try with
    | some (gs, s2) => (gs, true, s2)
    | none =>
      match (do
        let s1 ← sep s
        readNumber 16 65535 (some 4) true s1) with
      | none => ([], false, s)
      | some (g, s2) =>
        let (gs, emb, s3) := readGroupsAux rem (i + 1) s2
        (g :: gs, emb, s3)

/-- Rust `Parser::read_ipv6_addr`: head groups, a mandatory `::` elision
filled with zero groups when fewer than eight head groups were read (an
embedded IPv4 address is not allowed before the `::`), then tail groups.
Returns the eight 16-bit groups. -/
def readIpv6Addr (s : List Char) : Option (List Nat × List Char) :=
  let (head, headIpv4, s1) := readGroupsAux 8 0 s
  if head.length = 8 then some (head, s1)
  else if headIpv4 then none
  else
    match readGivenChar ':' s1 with
    | none => none
    | some s2 =>
      match readGivenChar ':' s2 with
      | none => none
      | some s3 =>
        let limit := 8 - (head.length + 1)
        let (tail, _, s4) := readGroupsAux limit 0 s3
        some (head ++ List.replicate (8 - head.length - tail.length) 0 ++ tail, s4)

/-- Rust `Parser::read_port`: a colon followed by a decimal `u16` (leading
zeros allowed). -/
def readPort (s : List Char) : Option (Nat × List Char) := do
  let s ← readGivenChar ':' s
  readNumber 10 65535 none true s

/-- Rust `Parser::read_scope_id`: a percent sign followed by a decimal
`u32`. -/
def readScopeId (s : List Char) : Option (Nat × List Char) := do
  let s ← readGivenChar '%' s
  readNumber 10 4294967295 none true s

/-- Model of `std::net::SocketAddr` as produced by its string parser. -/
inductive SocketAddr where
  | v4 (a b c d port : Nat)
  | v6 (groups : List Nat) (scopeId port : Nat)
  deriving DecidableEq, Repr

/-- Rust `Parser::read_socket_addr_v4`: an IPv4 address followed by a
port. -/
def readSocketAddrV4 (s : List Char) : Option (SocketAddr × List Char) := do
  let ((a, b, c, d), s) ← readIpv4Addr s
  let (port, s) ← readPort s
  return (SocketAddr.v4 a b c d port, s)

/-- Rust `Parser::read_socket_addr_v6`: a bracketed IPv6 address with an
optional scope id, followed by a port. -/
def readSocketAddrV6 (s : List Char) : Option (SocketAddr × List Char) := do
  let s ← readGivenChar '[' s
  let (ip, s) ← readIpv6Addr s
  let (scope, s) :=
    match readScopeId s with
    | some (sc, s2) => (sc, s2)
    | none => (0, s)
  let s ← readGivenChar ']' s
  let (port, s) ← readPort s
  return (SocketAddr.v6 ip scope port, s)

/-- Rust `Parser::read_socket_addr`: try IPv4 form first, IPv6 form
otherwise. -/
def readSocketAddr (s : List Char) : Option (SocketAddr × List Char) :=
  match readSocketAddrV4 s with
  | some r => some r
  | none => readSocketAddrV6 s

/-- Rust `str::parse::<SocketAddr>()` (`Parser::parse_with`): the whole
string must be consumed. -/
def parseSocketAddr (s : String) : Option SocketAddr :=
  match readSocketAddr s.data with
  | some (a, []) => some a
  | _ => none

/-- The `parse_addr` helper from `src/lib.rs` lines 170-175: validate that
`addr` parses as a socket address and return it unchanged, or fail with the
`Parse` error. -/
def parse_addr (addr : String) : Except EzError String :=
  match parseSocketAddr addr with
  | some _ => Except.ok addr
  | none => Except.error EzError.Parse

/-- The `get_env` helper from `src/lib.rs` lines 162-168: read an
environment variable or fail with an `Env` error naming it. -/
def get_env (env : EnvMap) (name : String) : Except EzError String :=
  match env name with
  | some val => Except.ok val
  | none => Except.error (EzError.Env name)

/-- Helper for Rust `str::split_once(":")`: split at the first colon. -/
def splitOnceColonAux : List Char → Option (List Char × List Char)
  | [] => none
  | c :: rest =>
    if c = ':' then some ([], rest)
    else
      match splitOnceColonAux rest with
      | some (pre, post) => some (c :: pre, post)
      | none => none

/-- Rust `service_addr.split_once(":")` as used at `src/lib.rs` line 113. -/
def splitOnceColon (s : String) : Option (String × String) :=
  match splitOnceColonAux s.data with
  | some (pre, post) => some (String.mk pre, String.mk post)
  | none => none

/-- Digit loop of Rust `i32::from_str` with checked `i32` arithmetic. -/
def parseI32Loop (positive : Bool) : List Char → Int → Option Int
  | [], acc => some acc
  | c :: rest, acc =>
    match toDigit 10 c with
    | none => none
    | some d =>
      if positive then
        let acc2 := acc * 10 + d
        if 2147483647 < acc2 then none else parseI32Loop positive rest acc2
      else
        let acc2 := acc * 10 - d
        if acc2 < -2147483648 then none else parseI32Loop positive rest acc2

/-- Rust `str::parse::<i32>()`: an optional sign followed by at least one
decimal digit, with `i32` overflow checking. -/
def parseI32 (s : String) : Option Int :=
  match s.data with
  | [] => none
  | '+' :: rest => if rest.isEmpty then none else parseI32Loop true rest 0
  | '-' :: rest => if rest.isEmpty then none else parseI32Loop false rest 0
  | l => parseI32Loop true l 0

/-- The `nacos_sdk` `ServiceInstance` struct, restricted to the fields this
crate sets (`src/lib.rs` lines 119-128); fields filled by
`..Default::default()` and never read are elided.  `weight` is an `f64`
always set to the exactly representable constant `1.0` and never computed
with, so it is modelled as a rational.  `metadata` is the single-entry
`HashMap` built at line 126, modelled as an association list. -/
structure ServiceInstance where
  ip : String
  port : Int
  weight : ℚ
  healthy : Bool
  enabled : Bool
  ephemeral : Bool
  metadata : List (String × String)
  deriving DecidableEq, Repr

/-- The naming-service client boundary: the outcomes of
`register_instance` and `deregister_instance` for given arguments, with
client errors as message strings. -/
structure NamingService where
  register : String → Option String → ServiceInstance → Except String Unit
  deregister : String → Option String → ServiceInstance → Except String Unit

/-- The builder boundary from `src/lib.rs` lines 107-109: constructing a
client from the resolved `(server_addr, namespace)` pair may fail with a
message. -/
abbrev BuildFn := String → String → Except String NamingService

/-- `nacos_sdk::api::constants::DEFAULT_GROUP`. -/
def DEFAULT_GROUP : String := "DEFAULT_GROUP"

/-- The `META_GRPC_PORT` constant from `src/lib.rs` line 14. -/
def META_GRPC_PORT : String := "gRPC_port"

/-- `ServeOptions` from `src/lib.rs` lines 67-73.  The source field
`namespace` is a Lean keyword and is spelled `namespc` here. -/
structure ServeOptions where
  addr : Option String
  namespc : Option String
  service_addr : Option String
  service_name : Option String
  service_host : Option String

/-- `ServiceManager` from `src/lib.rs` lines 75-80; the `Arc` wrapper is
elided. -/
structure ServiceManager where
  naming_service : NamingService
  service_instance : ServiceInstance
  service_name : String

/-- Outcome of running a fallible Rust function: `Ok`, `Err`, or a panic
(here only from `.unwrap()` on a failed parse). -/
inductive RunResult (α : Type) where
  | ok (a : α)
  | err (e : EzError)
  | panic

/-- The option-or-environment resolution used for `addr`, `namespace` and
`service_name` (`src/lib.rs` lines 84-87, 88-91, 96-99). -/
def resolveField (env : EnvMap) (field : Option String) (varName : String) :
    Except EzError String :=
  match field with
  | some v => Except.ok v
  | none => get_env env varName

/-- The inner resolution of `service_addr` (lines 92-95): an explicitly
supplied option is validated by `parse_addr` immediately, the environment
fallback is not (the outer `parse_addr` in the constructor validates
both). -/
def resolveServiceAddrField (env : EnvMap) (field : Option String) :
    Except EzError String :=
  match field with
  | some sa => parse_addr sa
  | none => get_env env "SERVICE_ADDR"

/-- Line 101 of `src/lib.rs`:
`opt.service_host.unwrap_or_else(|| get_env("SERVICE_HOST").unwrap_or(local_ip))`. -/
def resolveServiceHost (env : EnvMap) (localIpStr : String)
    (field : Option String) : String :=
  match field with
  | some h => h
  | none =>
    match get_env env "SERVICE_HOST" with
    | Except.ok v => v
    | Except.error _ => localIpStr

/-- `ServiceManager::new` from `src/lib.rs` lines 83-134.  The process
environment, the result of `local_ip()` and the `NamingServiceBuilder` are
explicit parameters; the `tracing::info!` lines are effect-free and elided.
The `port.parse::<i32>().unwrap()` at line 121 panics when the parse fails,
modelled by `RunResult.panic`. -/
def ServiceManager.new (env : EnvMap) (localIp : Except String String)
    (build : BuildFn) (opt : ServeOptions) : RunResult ServiceManager :=
  match resolveField env opt.addr "NACOS_ADDR" with
  | Except.error e => RunResult.err e
  | Except.ok a0 =>
  match parse_addr a0 with
  | Except.error e => RunResult.err e
  | Except.ok addr =>
  match resolveField env opt.namespc "NACOS_NAMESPACE" with
  | Except.error e => RunResult.err e
  | Except.ok ns =>
  match resolveServiceAddrField env opt.service_addr with
  | Except.error e => RunResult.err e
  | Except.ok sa0 =>
  match parse_addr sa0 with
  | Except.error e => RunResult.err e
  | Except.ok service_addr =>
  match resolveField env opt.service_name "SERVICE_NAME" with
  | Except.error e => RunResult.err e
  | Except.ok service_name =>
  match localIp with
  | Except.error e => RunResult.err (EzError.LocalIP e)
  | Except.ok local_ip =>
  match build addr ns with
  | Except.error e =>
      RunResult.err (EzError.Other ("NamingService create failed: " ++ e))
  | Except.ok naming_service =>
  match splitOnceColon service_addr with
  | none => RunResult.err (EzError.Other "Invalid service address")
  | some (_, port) =>
  match parseI32 port with
  | none => RunResult.panic
  | some p =>
    RunResult.ok
      { naming_service := naming_service
      , service_instance :=
          { ip := resolveServiceHost env local_ip opt.service_host
          , port := p
          , weight := 1
          , healthy := true
          , enabled := true
          , ephemeral := true
          , metadata := [(META_GRPC_PORT, port)] }
      , service_name := service_name }

/-- The argument triple a register or deregister call passes to the
client; the source field `instance` is a Lean keyword and is spelled
`inst` here. -/
structure RegistryCall where
  service_name : String
  group : Option String
  inst : ServiceInstance
  deriving DecidableEq, Repr

/-- `ServiceManager::online` from `src/lib.rs` lines 136-141: the first
component records the argument triple passed to `register_instance`
(line 137), the second is the returned result with the client error wrapped
as at line 138. -/
def ServiceManager.online (m : ServiceManager) :
    RegistryCall × Except EzError Unit :=
  (⟨m.service_name, some DEFAULT_GROUP, m.service_instance⟩,
   match m.naming_service.register m.service_name (some DEFAULT_GROUP)
       m.service_instance with
   | Except.ok _ => Except.ok ()
   | Except.error e =>
       Except.error (EzError.Other ("Service online error: " ++ e)))

/-- `ServiceManager::offline` from `src/lib.rs` lines 142-147, analogous to
`online` with `deregister_instance`. -/
def ServiceManager.offline (m : ServiceManager) :
    RegistryCall × Except EzError Unit :=
  (⟨m.service_name, some DEFAULT_GROUP, m.service_instance⟩,
   match m.naming_service.deregister m.service_name (some DEFAULT_GROUP)
       m.service_instance with
   | Except.ok _ => Except.ok ()
   | Except.error e =>
       Except.error (EzError.Other ("Service offline error: " ++ e)))

/-- An empty process environment, for concrete runs. -/
def env0 : EnvMap := fun _ => none

/-- A client whose register and deregister calls always succeed. -/
def client0 : NamingService :=
  ⟨fun _ _ _ => Except.ok (), fun _ _ _ => Except.ok ()⟩

/-- A builder that always returns `client0`. -/
def build0 : BuildFn := fun _ _ => Except.ok client0

/-- Helper: a successful `parse_addr` returns its input unchanged. -/
theorem parse_addr_ok {a b : String} (h : parse_addr a = Except.ok b) :
    b = a := by
  unfold parse_addr at h
  split at h
  · injection h with h2
    exact h2.symm
  · exact Except.noConfusion h

/-- Helper: inversion of a successful `ServiceManager::new` run, recovering
every intermediate resolution step and the exact shape of the constructed
manager. -/
theorem ServiceManager.new_ok_inv (env : EnvMap)
    (localIp : Except String String) (build : BuildFn) (opt : ServeOptions)
    (m : ServiceManager)
    (h : ServiceManager.new env localIp build opt = RunResult.ok m) :
    ∃ a0 addr ns sa0 sa sn lip client pre port p,
      resolveField env opt.addr "NACOS_ADDR" = Except.ok a0 ∧
      parse_addr a0 = Except.ok addr ∧
      resolveField env opt.namespc "NACOS_NAMESPACE" = Except.ok ns ∧
      resolveServiceAddrField env opt.service_addr = Except.ok sa0 ∧
      parse_addr sa0 = Except.ok sa ∧
      resolveField env opt.service_name "SERVICE_NAME" = Except.ok sn ∧
      localIp = Except.ok lip ∧
      build addr ns = Except.ok client ∧
      splitOnceColon sa = some (pre, port) ∧
      parseI32 port = some p ∧
      m = { naming_service := client
          , service_instance :=
              { ip := resolveServiceHost env lip opt.service_host
              , port := p
              , weight := 1
              , healthy := true
              , enabled := true
              , ephemeral := true
              , metadata := [(META_GRPC_PORT, port)] }
          , service_name := sn } := by
  unfold ServiceManager.new at h
  split at h
  · exact RunResult.noConfusion h
  rename_i a0 h1
  split at h
  · exact RunResult.noConfusion h
  rename_i addr h2
  split at h
  · exact RunResult.noConfusion h
  rename_i ns h3
  split at h
  · exact RunResult.noConfusion h
  rename_i sa0 h4
  split at h
  · exact RunResult.noConfusion h
  rename_i sa h5
  split at h
  · exact RunResult.noConfusion h
  rename_i sn h6
  split at h
  · exact RunResult.noConfusion h
  rename_i lip
  split at h
  · exact RunResult.noConfusion h
  rename_i client h8
  split at h
  · exact RunResult.noConfusion h
  rename_i pre port h9
  split at h
  · exact RunResult.noConfusion h
  rename_i p h10
  injection h with hm
  exact ⟨a0, addr, ns, sa0, sa, sn, lip, client, pre, port, p,
    h1, h2, h3, h4, h5, h6, rfl, h8, h9, h10, hm.symm⟩

/-- Extract the published instance IP from a construction outcome. -/
def builtIp (r : RunResult ServiceManager) : Option String :=
  match r with
  | RunResult.ok m => some m.service_instance.ip
  | _ => none

/-- Options for the C1 scenario: `service_addr = "10.0.0.5:9000"`, no
`service_host` override. -/
def optNoHost : ServeOptions :=
  { addr := some "127.0.0.1:8848", namespc := some "public"
  , service_addr := some "10.0.0.5:9000", service_name := some "svc"
  , service_host := none }

/-- C1 counterexample: with no `service_host` override anywhere and a
detected local IP of `"192.168.1.7"`, the constructed instance publishes
`ip = "192.168.1.7"` — not the service address's own host `"10.0.0.5"` as
the claim's parenthetical would require. -/
theorem C1_counterexample :
    builtIp (ServiceManager.new env0 (Except.ok "192.168.1.7") build0
        optNoHost)
      = some "192.168.1.7" ∧ ("192.168.1.7" : String) ≠ "10.0.0.5" := by
  exact ⟨rfl, by decide⟩

/-- C1 (amended): every successfully constructed manager carries a
`ServiceInstance` whose `ip` is the resolved `service_host` — the options
override, else the `SERVICE_HOST` environment variable, else the detected
local IP, never the address's own host — whose `port` is the integer parse
of the substring of the resolved `service_addr` after its first colon,
whose `weight` is `1.0`, whose `healthy`, `enabled` and `ephemeral` flags
are all true, and whose metadata maps `"gRPC_port"` to that port
substring. -/
theorem C1_instance_shape (env : EnvMap) (localIp : Except String String)
    (build : BuildFn) (opt : ServeOptions) (m : ServiceManager)
    (h : ServiceManager.new env localIp build opt = RunResult.ok m) :
    ∃ sa pre port p lip,
      resolveServiceAddrField env opt.service_addr = Except.ok sa ∧
      localIp = Except.ok lip ∧
      splitOnceColon sa = some (pre, port) ∧
      parseI32 port = some p ∧
      m.service_instance =
        { ip := resolveServiceHost env lip opt.service_host
        , port := p
        , weight := 1
        , healthy := true
        , enabled := true
        , ephemeral := true
        , metadata := [(META_GRPC_PORT, port)] } := by
  obtain ⟨a0, addr, ns, sa0, sa, sn, lip, client, pre, port, p,
    h1, h2, h3, h4, h5, h6, h7, h8, h9, h10, hm⟩ :=
      ServiceManager.new_ok_inv env localIp build opt m h
  have hsa : sa = sa0 := parse_addr_ok h5
  subst hsa
  subst hm
  exact ⟨sa, pre, port, p, lip, h4, h7, h9, h10, rfl⟩

/-- The manager built in the C1 witness scenario. -/
def mgrNoHost : ServiceManager :=
  { naming_service := client0
  , service_instance :=
      { ip := "192.168.1.7", port := 9000, weight := 1
      , healthy := true, enabled := true, ephemeral := true
      , metadata := [("gRPC_port", "9000")] }
  , service_name := "svc" }

/-- C1 witness: the amended claim instantiated at
`service_addr = "10.0.0.5:9000"` with no host override; in particular the
metadata maps `"gRPC_port"` to `"9000"`. -/
theorem C1_instance_shape_witness :
    (∃ sa pre port p lip,
      resolveServiceAddrField env0 optNoHost.service_addr = Except.ok sa ∧
      (Except.ok "192.168.1.7" : Except String String) = Except.ok lip ∧
      splitOnceColon sa = some (pre, port) ∧
      parseI32 port = some p ∧
      mgrNoHost.service_instance =
        { ip := resolveServiceHost env0 lip optNoHost.service_host
        , port := p
        , weight := 1
        , healthy := true
        , enabled := true
        , ephemeral := true
        , metadata := [(META_GRPC_PORT, port)] }) ∧
    mgrNoHost.service_instance.metadata = [("gRPC_port", "9000")] :=
  ⟨C1_instance_shape env0 (Except.ok "192.168.1.7") build0 optNoHost
      mgrNoHost rfl, rfl⟩

/-- C2: `online()` followed by `offline()` with no intervening mutation
passes field-for-field identical `(service_name, group, instance)` triples
to the registry client, and the group is `DEFAULT_GROUP` in both calls. -/
theorem C2_online_offline_same_triple (m : ServiceManager) :
    (ServiceManager.online m).1 = (ServiceManager.offline m).1 ∧
    (ServiceManager.online m).1.group = some DEFAULT_GROUP ∧
    (ServiceManager.offline m).1.group = some DEFAULT_GROUP :=
  ⟨rfl, rfl, rfl⟩

/-- Options for the C3 failing input: a valid IPv6 `service_addr`. -/
def optIpv6 : ServeOptions :=
  { addr := some "127.0.0.1:8848", namespc := some "public"
  , service_addr := some "[::1]:8080", service_name := some "svc"
  , service_host := some "10.0.0.9" }

/-- C3: the string `"[::1]:8080"` is accepted by the socket-address
validation in `parse_addr`, yet `ServiceManager::new` panics — the
substring after the first colon is `":1]:8080"`, whose `i32` parse fails,
and line 121 calls `.unwrap()` on it — instead of returning a
Configuration-kind error as the claim states. -/
theorem C3_ipv6_panic :
    parse_addr "[::1]:8080" = Except.ok "[::1]:8080" ∧
    splitOnceColon "[::1]:8080" = some ("[", ":1]:8080") ∧
    parseI32 ":1]:8080" = none ∧
    ServiceManager.new env0 (Except.ok "192.168.1.7") build0 optIpv6
      = RunResult.panic :=
  ⟨rfl, rfl, rfl, rfl⟩

/-- C4: when every option field is explicitly supplied, construction never
consults the environment — any two environments yield identical results. -/
theorem C4_env_independent (env1 env2 : EnvMap)
    (localIp : Except String String) (build : BuildFn)
    (a ns sa sn hh : String) :
    ServiceManager.new env1 localIp build
        ⟨some a, some ns, some sa, some sn, some hh⟩
      = ServiceManager.new env2 localIp build
        ⟨some a, some ns, some sa, some sn, some hh⟩ := rfl

/-- C5: each of the four fields `addr`, `namespace`, `service_addr`,
`service_name`, when omitted from the options, is resolved from exactly the
correspondingly named environment variable — an omitted field with its
variable set behaves as if the variable's value had been supplied
explicitly, and an omitted field with its variable absent yields the `Env`
error naming that variable (once the fields the constructor resolves
earlier have succeeded, since errors surface in code order). -/
theorem C5_env_fallback :
    (∀ (env : EnvMap) (localIp : Except String String) (build : BuildFn)
       (opt : ServeOptions),
       opt.addr = none → env "NACOS_ADDR" = none →
       ServiceManager.new env localIp build opt
         = RunResult.err (EzError.Env "NACOS_ADDR")) ∧
    (∀ (env : EnvMap) (localIp : Except String String) (build : BuildFn)
       (opt : ServeOptions) (v : String),
       opt.addr = none → env "NACOS_ADDR" = some v →
       ServiceManager.new env localIp build opt
         = ServiceManager.new env localIp build
             ⟨some v, opt.namespc, opt.service_addr, opt.service_name,
              opt.service_host⟩) ∧
    (∀ (env : EnvMap) (localIp : Except String String) (build : BuildFn)
       (opt : ServeOptions) (a0 addr : String),
       resolveField env opt.addr "NACOS_ADDR" = Except.ok a0 →
       parse_addr a0 = Except.ok addr →
       opt.namespc = none → env "NACOS_NAMESPACE" = none →
       ServiceManager.new env localIp build opt
         = RunResult.err (EzError.Env "NACOS_NAMESPACE")) ∧
    (∀ (env : EnvMap) (localIp : Except String String) (build : BuildFn)
       (opt : ServeOptions) (v : String),
       opt.namespc = none → env "NACOS_NAMESPACE" = some v →
       ServiceManager.new env localIp build opt
         = ServiceManager.new env localIp build
             ⟨opt.addr, some v, opt.service_addr, opt.service_name,
              opt.service_host⟩) ∧
    (∀ (env : EnvMap) (localIp : Except String String) (build : BuildFn)
       (opt : ServeOptions) (a0 addr ns : String),
       resolveField env opt.addr "NACOS_ADDR" = Except.ok a0 →
       parse_addr a0 = Except.ok addr →
       resolveField env opt.namespc "NACOS_NAMESPACE" = Except.ok ns →
       opt.service_addr = none → env "SERVICE_ADDR" = none →
       ServiceManager.new env localIp build opt
         = RunResult.err (EzError.Env "SERVICE_ADDR")) ∧
    (∀ (env : EnvMap) (localIp : Except String String) (build : BuildFn)
       (opt : ServeOptions) (v : String),
       opt.service_addr = none → env "SERVICE_ADDR" = some v →
       parse_addr v = Except.ok v →
       ServiceManager.new env localIp build opt
         = ServiceManager.new env localIp build
             ⟨opt.addr, opt.namespc, some v, opt.service_name,
              opt.service_host⟩) ∧
    (∀ (env : EnvMap) (localIp : Except String String) (build : BuildFn)
       (opt : ServeOptions) (a0 addr ns sa0 sa : String),
       resolveField env opt.addr "NACOS_ADDR" = Except.ok a0 →
       parse_addr a0 = Except.ok addr →
       resolveField env opt.namespc "NACOS_NAMESPACE" = Except.ok ns →
       resolveServiceAddrField env opt.service_addr = Except.ok sa0 →
       parse_addr sa0 = Except.ok sa →
       opt.service_name = none → env "SERVICE_NAME" = none →
       ServiceManager.new env localIp build opt
         = RunResult.err (EzError.Env "SERVICE_NAME")) ∧
    (∀ (env : EnvMap) (localIp : Except String String) (build : BuildFn)
       (opt : ServeOptions) (v : String),
       opt.service_name = none → env "SERVICE_NAME" = some v →
       ServiceManager.new env localIp build opt
         = ServiceManager.new env localIp build
             ⟨opt.addr, opt.namespc, opt.service_addr, some v,
              opt.service_host⟩) := by
  refine ⟨?_, ?_, ?_, ?_, ?_, ?_, ?_, ?_⟩
  · intro env localIp build opt h1 h2
    simp only [ServiceManager.new, resolveField, h1, get_env, h2]
  · intro env localIp build opt v h1 h2
    simp only [ServiceManager.new, resolveField, h1, get_env, h2]
  · intro env localIp build opt a0 addr h1 h2 h3 h4
    simp only [ServiceManager.new, h1, h2]
    simp only [resolveField, h3, get_env, h4]
  · intro env localIp build opt v h1 h2
    simp only [ServiceManager.new, resolveField, h1, get_env, h2]
  · intro env localIp build opt a0 addr ns h1 h2 h3 h4 h5
    simp only [ServiceManager.new, h1, h2, h3, resolveServiceAddrField, h4,
      get_env, h5]
  · intro env localIp build opt v h1 h2 h3
    simp only [ServiceManager.new, resolveServiceAddrField, h1, get_env, h2,
      h3]
  · intro env localIp build opt a0 addr ns sa0 sa h1 h2 h3 h4 h5 h6 h7
    simp only [ServiceManager.new, h1, h2, h3, h4, h5]
    simp only [resolveField, h6, get_env, h7]
  · intro env localIp build opt v h1 h2
    simp only [ServiceManager.new, resolveField, h1, get_env, h2]

/-- Environment holding exactly one variable, for the C5 witness runs. -/
def envOne (name val : String) : EnvMap :=
  fun n => if n = name then some val else none

/-- C5 witness: all eight components instantiated on concrete inputs —
each omitted field falls back to its own variable's value when set, and
produces the `Env` error naming its own variable when absent. -/
theorem C5_env_fallback_witness :
    (ServiceManager.new env0 (Except.ok "10.0.0.1") build0
        ⟨none, none, none, none, none⟩
      = RunResult.err (EzError.Env "NACOS_ADDR")) ∧
    (ServiceManager.new (envOne "NACOS_ADDR" "127.0.0.1:8848")
        (Except.ok "10.0.0.1") build0 ⟨none, none, none, none, none⟩
      = ServiceManager.new (envOne "NACOS_ADDR" "127.0.0.1:8848")
        (Except.ok "10.0.0.1") build0
        ⟨some "127.0.0.1:8848", none, none, none, none⟩) ∧
    (ServiceManager.new env0 (Except.ok "10.0.0.1") build0
        ⟨some "127.0.0.1:8848", none, none, none, none⟩
      = RunResult.err (EzError.Env "NACOS_NAMESPACE")) ∧
    (ServiceManager.new (envOne "NACOS_NAMESPACE" "public")
        (Except.ok "10.0.0.1") build0
        ⟨some "127.0.0.1:8848", none, none, none, none⟩
      = ServiceManager.new (envOne "NACOS_NAMESPACE" "public")
        (Except.ok "10.0.0.1") build0
        ⟨some "127.0.0.1:8848", some "public", none, none, none⟩) ∧
    (ServiceManager.new env0 (Except.ok "10.0.0.1") build0
        ⟨some "127.0.0.1:8848", some "public", none, none, none⟩
      = RunResult.err (EzError.Env "SERVICE_ADDR")) ∧
    (ServiceManager.new (envOne "SERVICE_ADDR" "10.0.0.5:9000")
        (Except.ok "10.0.0.1") build0
        ⟨some "127.0.0.1:8848", some "public", none, none, none⟩
      = ServiceManager.new (envOne "SERVICE_ADDR" "10.0.0.5:9000")
        (Except.ok "10.0.0.1") build0
        ⟨some "127.0.0.1:8848", some "public", some "10.0.0.5:9000", none,
         none⟩) ∧
    (ServiceManager.new env0 (Except.ok "10.0.0.1") build0
        ⟨some "127.0.0.1:8848", some "public", some "10.0.0.5:9000", none,
         none⟩
      = RunResult.err (EzError.Env "SERVICE_NAME")) ∧
    (ServiceManager.new (envOne "SERVICE_NAME" "svc")
        (Except.ok "10.0.0.1") build0
        ⟨some "127.0.0.1:8848", some "public", some "10.0.0.5:9000", none,
         none⟩
      = ServiceManager.new (envOne "SERVICE_NAME" "svc")
        (Except.ok "10.0.0.1") build0
        ⟨some "127.0.0.1:8848", some "public", some "10.0.0.5:9000",
         some "svc", none⟩) :=
  ⟨C5_env_fallback.1 env0 (Except.ok "10.0.0.1") build0
      ⟨none, none, none, none, none⟩ rfl rfl,
   C5_env_fallback.2.1 (envOne "NACOS_ADDR" "127.0.0.1:8848")
      (Except.ok "10.0.0.1") build0 ⟨none, none, none, none, none⟩
      "127.0.0.1:8848" rfl rfl,
   C5_env_fallback.2.2.1 env0 (Except.ok "10.0.0.1") build0
      ⟨some "127.0.0.1:8848", none, none, none, none⟩
      "127.0.0.1:8848" "127.0.0.1:8848" rfl rfl rfl rfl,
   C5_env_fallback.2.2.2.1 (envOne "NACOS_NAMESPACE" "public")
      (Except.ok "10.0.0.1") build0
      ⟨some "127.0.0.1:8848", none, none, none, none⟩ "public" rfl rfl,
   C5_env_fallback.2.2.2.2.1 env0 (Except.ok "10.0.0.1") build0
      ⟨some "127.0.0.1:8848", some "public", none, none, none⟩
      "127.0.0.1:8848" "127.0.0.1:8848" "public" rfl rfl rfl rfl rfl,
   C5_env_fallback.2.2.2.2.2.1 (envOne "SERVICE_ADDR" "10.0.0.5:9000")
      (Except.ok "10.0.0.1") build0
      ⟨some "127.0.0.1:8848", some "public", none, none, none⟩
      "10.0.0.5:9000" rfl rfl rfl,
   C5_env_fallback.2.2.2.2.2.2.1 env0 (Except.ok "10.0.0.1") build0
      ⟨some "127.0.0.1:8848", some "public", some "10.0.0.5:9000", none,
       none⟩
      "127.0.0.1:8848" "127.0.0.1:8848" "public" "10.0.0.5:9000"
      "10.0.0.5:9000" rfl rfl rfl rfl rfl rfl rfl,
   C5_env_fallback.2.2.2.2.2.2.2 (envOne "SERVICE_NAME" "svc")
      (Except.ok "10.0.0.1") build0
      ⟨some "127.0.0.1:8848", some "public", some "10.0.0.5:9000", none,
       none⟩ "svc" rfl rfl⟩

/-- C6: `parse_addr` succeeds exactly on the strings accepted by
socket-address parsing, returning the input unchanged, and yields the
`Parse` error otherwise; in particular `"not-an-address"` and
`"127.0.0.1"` are rejected and `"127.0.0.1:8080"` is accepted. -/
theorem C6_parse_addr_spec (s : String) :
    (parse_addr s = Except.ok s ↔ (parseSocketAddr s).isSome = true) ∧
    (parse_addr s = Except.error EzError.Parse ↔ parseSocketAddr s = none) ∧
    parse_addr "not-an-address" = Except.error EzError.Parse ∧
    parse_addr "127.0.0.1" = Except.error EzError.Parse ∧
    parse_addr "127.0.0.1:8080" = Except.ok "127.0.0.1:8080" := by
  refine ⟨?_, ?_, rfl, rfl, rfl⟩
  · cases hp : parseSocketAddr s <;> simp [parse_addr, hp]
  · cases hp : parseSocketAddr s <;> simp [parse_addr, hp]

/-- C7: when `service_host` is resolved neither from the options nor from
the `SERVICE_HOST` environment variable, a successful construction
publishes the detected local IP as the instance `ip`; and when the earlier
resolutions succeed but local-IP detection fails, construction returns the
`LocalIP` error. -/
theorem C7_local_ip_default :
    (∀ (env : EnvMap) (localIp : Except String String) (build : BuildFn)
       (opt : ServeOptions) (m : ServiceManager) (lip : String),
       opt.service_host = none → env "SERVICE_HOST" = none →
       localIp = Except.ok lip →
       ServiceManager.new env localIp build opt = RunResult.ok m →
       m.service_instance.ip = lip) ∧
    (∀ (env : EnvMap) (build : BuildFn) (opt : ServeOptions)
       (e a0 addr ns sa0 sa sn : String),
       opt.service_host = none → env "SERVICE_HOST" = none →
       resolveField env opt.addr "NACOS_ADDR" = Except.ok a0 →
       parse_addr a0 = Except.ok addr →
       resolveField env opt.namespc "NACOS_NAMESPACE" = Except.ok ns →
       resolveServiceAddrField env opt.service_addr = Except.ok sa0 →
       parse_addr sa0 = Except.ok sa →
       resolveField env opt.service_name "SERVICE_NAME" = Except.ok sn →
       ServiceManager.new env (Except.error e) build opt
         = RunResult.err (EzError.LocalIP e)) := by
  constructor
  · intro env localIp build opt m lip hhost henv hlip h
    obtain ⟨a0, addr, ns, sa0, sa, sn, lip2, client, pre, port, p,
      h1, h2, h3, h4, h5, h6, h7, h8, h9, h10, hm⟩ :=
        ServiceManager.new_ok_inv env localIp build opt m h
    have hl : lip2 = lip := by
      rw [hlip] at h7
      injection h7 with h7e
      exact h7e.symm
    subst hl
    subst hm
    simp only [resolveServiceHost, hhost, get_env, henv]
  · intro env build opt e a0 addr ns sa0 sa sn hhost henv h1 h2 h3 h4 h5 h6
    simp only [ServiceManager.new, h1, h2, h3, h4, h5, h6]

/-- The manager built in the first C7 witness scenario. -/
def mgrLocalIp : ServiceManager :=
  { naming_service := client0
  , service_instance :=
      { ip := "10.9.8.7", port := 9000, weight := 1
      , healthy := true, enabled := true, ephemeral := true
      , metadata := [("gRPC_port", "9000")] }
  , service_name := "svc" }

/-- C7 witness: on concrete inputs with no host override, the published IP
is the detected local IP `"10.9.8.7"`; and with a failed local-IP
detection, construction returns `LocalIP "no iface"`. -/
theorem C7_local_ip_default_witness :
    mgrLocalIp.service_instance.ip = "10.9.8.7" ∧
    ServiceManager.new env0 (Except.error "no iface") build0 optNoHost
      = RunResult.err (EzError.LocalIP "no iface") :=
  ⟨C7_local_ip_default.1 env0 (Except.ok "10.9.8.7") build0 optNoHost
      mgrLocalIp "10.9.8.7" rfl rfl rfl rfl,
   C7_local_ip_default.2 env0 build0 optNoHost "no iface"
      "127.0.0.1:8848" "127.0.0.1:8848" "public" "10.0.0.5:9000"
      "10.0.0.5:9000" "svc" rfl rfl rfl rfl rfl rfl rfl rfl⟩

/-- C8: when the client's register call fails, `online` returns the
Registration-kind error wrapping the client's message.  `online` is a total
function into `Except`, so it cannot panic, and it takes the manager
immutably — the triple it passes to the client (its first component) is
built from the manager's unchanged fields. -/
theorem C8_online_failure (m : ServiceManager) (e : String)
    (h : m.naming_service.register m.service_name (some DEFAULT_GROUP)
           m.service_instance = Except.error e) :
    (ServiceManager.online m).2
        = Except.error (EzError.Other ("Service online error: " ++ e)) ∧
    (ServiceManager.online m).1
        = ⟨m.service_name, some DEFAULT_GROUP, m.service_instance⟩ := by
  refine ⟨?_, rfl⟩
  unfold ServiceManager.online
  rw [h]

/-- A client whose register call always fails with `"boom"`. -/
def clientFail : NamingService :=
  ⟨fun _ _ _ => Except.error "boom", fun _ _ _ => Except.ok ()⟩

/-- A concrete manager wired to the failing client, for the C8 witness. -/
def mgrFail : ServiceManager :=
  { naming_service := clientFail
  , service_instance :=
      { ip := "1.2.3.4", port := 80, weight := 1, healthy := true
      , enabled := true, ephemeral := true
      , metadata := [("gRPC_port", "80")] }
  , service_name := "svc" }

/-- C8 witness: the failing client makes `online` return the wrapped
Registration error on a concrete manager. -/
theorem C8_online_failure_witness :
    (ServiceManager.online mgrFail).2
        = Except.error (EzError.Other ("Service online error: " ++ "boom")) ∧
    (ServiceManager.online mgrFail).1
        = ⟨mgrFail.service_name, some DEFAULT_GROUP,
           mgrFail.service_instance⟩ :=
  C8_online_failure mgrFail "boom" rfl

/-- C9: when configuration resolution succeeds but the registry client
cannot be constructed, `ServiceManager::new` returns the ClientInit-kind
error wrapping the builder's failure message (it neither succeeds nor
panics). -/
theorem C9_client_init_failure (env : EnvMap) (lip : String)
    (build : BuildFn) (opt : ServeOptions) (a0 addr ns sa0 sa sn msg : String)
    (h1 : resolveField env opt.addr "NACOS_ADDR" = Except.ok a0)
    (h2 : parse_addr a0 = Except.ok addr)
    (h3 : resolveField env opt.namespc "NACOS_NAMESPACE" = Except.ok ns)
    (h4 : resolveServiceAddrField env opt.service_addr = Except.ok sa0)
    (h5 : parse_addr sa0 = Except.ok sa)
    (h6 : resolveField env opt.service_name "SERVICE_NAME" = Except.ok sn)
    (h7 : build addr ns = Except.error msg) :
    ServiceManager.new env (Except.ok lip) build opt
      = RunResult.err
          (EzError.Other ("NamingService create failed: " ++ msg)) := by
  simp only [ServiceManager.new, h1, h2, h3, h4, h5, h6, h7]

/-- C9 witness: a builder failing with `"unreachable"` on fully supplied,
valid options makes construction return the wrapped ClientInit error. -/
theorem C9_client_init_failure_witness :
    ServiceManager.new env0 (Except.ok "192.168.1.7")
        (fun _ _ => Except.error "unreachable") optNoHost
      = RunResult.err
          (EzError.Other ("NamingService create failed: " ++ "unreachable")) :=
  C9_client_init_failure env0 "192.168.1.7"
    (fun _ _ => Except.error "unreachable") optNoHost
    "127.0.0.1:8848" "127.0.0.1:8848" "public" "10.0.0.5:9000"
    "10.0.0.5:9000" "svc" "unreachable" rfl rfl rfl rfl rfl rfl rfl

/-- C10: local-IP detection happens unconditionally, before `service_host`
is examined — for every options bag and every environment, so in
particular even with `service_host` explicitly supplied in the options or
set only through the `SERVICE_HOST` environment variable, a failed
detection makes construction return the `LocalIP` error once the earlier
resolutions succeed. -/
theorem C10_local_ip_unconditional (env : EnvMap) (build : BuildFn)
    (opt : ServeOptions) (e a0 addr ns sa0 sa sn : String)
    (h1 : resolveField env opt.addr "NACOS_ADDR" = Except.ok a0)
    (h2 : parse_addr a0 = Except.ok addr)
    (h3 : resolveField env opt.namespc "NACOS_NAMESPACE" = Except.ok ns)
    (h4 : resolveServiceAddrField env opt.service_addr = Except.ok sa0)
    (h5 : parse_addr sa0 = Except.ok sa)
    (h6 : resolveField env opt.service_name "SERVICE_NAME" = Except.ok sn) :
    ServiceManager.new env (Except.error e) build opt
      = RunResult.err (EzError.LocalIP e) := by
  simp only [ServiceManager.new, h1, h2, h3, h4, h5, h6]

/-- Options with an explicit `service_host`, for the C10 witness. -/
def optWithHost : ServeOptions :=
  { addr := some "127.0.0.1:8848", namespc := some "public"
  , service_addr := some "10.0.0.5:9000", service_name := some "svc"
  , service_host := some "10.0.0.9" }

/-- C10 witness: with local-IP detection failing with `"no iface"`,
construction still returns the `LocalIP` error both when
`service_host = "10.0.0.9"` is explicitly supplied in the options and when
the override is set only through the `SERVICE_HOST` environment
variable. -/
theorem C10_local_ip_unconditional_witness :
    (ServiceManager.new env0 (Except.error "no iface") build0 optWithHost
      = RunResult.err (EzError.LocalIP "no iface")) ∧
    (ServiceManager.new (envOne "SERVICE_HOST" "10.0.0.9")
        (Except.error "no iface") build0 optNoHost
      = RunResult.err (EzError.LocalIP "no iface")) :=
  ⟨C10_local_ip_unconditional env0 build0 optWithHost "no iface"
    "127.0.0.1:8848" "127.0.0.1:8848" "public" "10.0.0.5:9000"
    "10.0.0.5:9000" "svc" rfl rfl rfl rfl rfl rfl,
   C10_local_ip_unconditional (envOne "SERVICE_HOST" "10.0.0.9") build0
    optNoHost "no iface" "127.0.0.1:8848" "127.0.0.1:8848" "public"
    "10.0.0.5:9000" "10.0.0.5:9000" "svc" rfl rfl rfl rfl rfl rfl⟩
